import Mathlib

/-!
Shallow embedding of the data pipeline of src/dashboard.py.

The function under study is get_data. Its try-block:
  1. requests.get(url) — may raise on a transport failure; the HTTP status
     code of a successful round trip is never inspected by the code.
  2. response.json() and data["hourly"] — the payload may lack the "hourly"
     key, which raises KeyError.
  3. pd.DataFrame with columns Date := pd.to_datetime(hourly["time"]),
     Male_Temperature := hourly["temperature_2m"], Male_Rainfall :=
     hourly["rain"]. pd.to_datetime raises on an unparseable entry, and the
     DataFrame constructor raises when the three arrays differ in length.
  4. now := pd.Timestamp.now(); each row gets
     Type := "Historical" if Date < now else "Forecast".
Any exception raised inside the try-block is caught, printed, and the empty
DataFrame is returned.

Embedding choices:
  - A timestamp is ℤ (pandas timestamps are totally ordered; the unit is
    irrelevant to the claims). An entry of the "time" array is Option ℤ:
    some t for a string that pd.to_datetime parses to the instant t, none
    for an unparseable string (on which pd.to_datetime raises).
  - Temperature and rain entries are Option ℚ: none is a JSON null, which
    pandas stores as a missing value (NaN) in the column.
  - The ambient clock pd.Timestamp.now() is passed in as the parameter now.
  - A fetch outcome is either a transport failure (requests.get raised) or
    a response carrying its HTTP status code and, when the JSON body has an
    "hourly" block, that block.
  - A raised-and-caught exception inside step 3 is the none value of
    buildRows; get_data maps it to the empty DataFrame, i.e. the empty list
    of rows.
-/

inductive Classification where
  | Historical
  | Forecast
deriving DecidableEq

/-- The parallel arrays under the payload key "hourly", exactly the three
fields the code reads: time, temperature_2m, rain. -/
structure HourlyBlock where
  time : List (Option ℤ)
  temperature_2m : List (Option ℚ)
  rain : List (Option ℚ)
deriving DecidableEq

/-- Outcome of the fetch step: requests.get either raises (network) or
returns a response with a status code and a JSON body that may or may not
contain an "hourly" block. The code never reads status_code. -/
inductive FetchResult where
  | network
  | response (status_code : ℕ) (hourly : Option HourlyBlock)
deriving DecidableEq

/-- One row of the DataFrame built by get_data: columns Date,
Male_Temperature, Male_Rainfall, Type. -/
structure Row where
  date : ℤ
  male_Temperature : Option ℚ
  male_Rainfall : Option ℚ
  type : Classification
deriving DecidableEq

/-- pd.to_datetime over the "time" array: all entries must parse, otherwise
the call raises (modelled as none). -/
def parseTimes : List (Option ℤ) → Option (List ℤ)
  | [] => some []
  | none :: _ => none
  | some t :: rest =>
    match parseTimes rest with
    | none => none
    | some ts => some (t :: ts)

/-- Index-aligned zip of the three parallel arrays, defined only to express
the row list the DataFrame constructor builds; the constructor is applied
only when the lengths agree. -/
def zip3 {α β γ : Type} : List α → List β → List γ → List (α × β × γ)
  | a :: as, b :: bs, c :: cs => (a, b, c) :: zip3 as bs cs
  | _, _, _ => []

/-- The classification lambda of the code:
Historical if x < now else Forecast. -/
def classify (now t : ℤ) : Classification :=
  if t < now then .Historical else .Forecast

/-- Steps 3 and 4 of the try-block: parse the time strings, require the
three arrays to have one common length, build one row per aligned index and
tag it. none models a raised pandas exception (unparseable time entry or
mismatched array lengths). -/
def buildRows (now : ℤ) (h : HourlyBlock) : Option (List Row) :=
  (parseTimes h.time).bind fun ts =>
    if ts.length = h.temperature_2m.length ∧ ts.length = h.rain.length then
      some ((zip3 ts h.temperature_2m h.rain).map fun p =>
        ⟨p.1, p.2.1, p.2.2, classify now p.1⟩)
    else none

/-- get_data: on a transport failure, a body without "hourly", or any
exception inside the DataFrame construction, the except-branch returns the
empty DataFrame; otherwise the built rows are returned. The HTTP status
code is ignored. -/
def get_data (now : ℤ) (fetch : FetchResult) : List Row :=
  match fetch with
  | .network => []
  | .response _ none => []
  | .response _ (some h) => (buildRows now h).getD []

/-- Modelled from the spec: the reference time truncated to the series
granularity (gran time units, e.g. one hour), the floor of now to the grid. -/
def truncatedReference (gran now : ℤ) : ℤ := gran * (now / gran)

theorem parseTimes_length : ∀ {l : List (Option ℤ)} {ts : List ℤ},
    parseTimes l = some ts → ts.length = l.length := by
  intro l
  induction l with
  | nil => intro ts h; simp [parseTimes] at h; simp [← h]
  | cons o rest ih =>
    intro ts h
    cases o with
    | none => simp [parseTimes] at h
    | some t =>
      simp only [parseTimes] at h
      cases hr : parseTimes rest with
      | none => rw [hr] at h; simp at h
      | some ts2 =>
        rw [hr] at h
        simp at h
        subst h
        simp [ih hr]

theorem parseTimes_none_of_mem {l : List (Option ℤ)} (h : none ∈ l) :
    parseTimes l = none := by
  induction l with
  | nil => simp at h
  | cons o rest ih =>
    cases o with
    | none => simp [parseTimes]
    | some t =>
      simp at h
      simp [parseTimes, ih h]

theorem zip3_length {α β γ : Type} :
    ∀ (a : List α) (b : List β) (c : List γ),
    a.length = b.length → a.length = c.length →
    (zip3 a b c).length = a.length := by
  intro a
  induction a with
  | nil => intro b c _ _; simp [zip3]
  | cons x as ih =>
    intro b c hb hc
    cases b with
    | nil => simp at hb
    | cons y bs =>
      cases c with
      | nil => simp at hc
      | cons z cs =>
        simp only [zip3, List.length_cons]
        simp only [List.length_cons] at hb hc
        rw [ih bs cs (by omega) (by omega)]

theorem zip3_map_fst {α β γ δ : Type} (g : α → δ) :
    ∀ (a : List α) (b : List β) (c : List γ),
    a.length = b.length → a.length = c.length →
    (zip3 a b c).map (fun p => g p.1) = a.map g := by
  intro a
  induction a with
  | nil => intro b c _ _; simp [zip3]
  | cons x as ih =>
    intro b c hb hc
    cases b with
    | nil => simp at hb
    | cons y bs =>
      cases c with
      | nil => simp at hc
      | cons z cs =>
        simp only [List.length_cons] at hb hc
        simp only [zip3, List.map_cons]
        rw [ih bs cs (by omega) (by omega)]

theorem zip3_map_snd {α β γ δ : Type} (g : β → δ) :
    ∀ (a : List α) (b : List β) (c : List γ),
    a.length = b.length → a.length = c.length →
    (zip3 a b c).map (fun p => g p.2.1) = b.map g := by
  intro a
  induction a with
  | nil =>
    intro b c hb _
    cases b with
    | nil => simp [zip3]
    | cons y bs => simp at hb
  | cons x as ih =>
    intro b c hb hc
    cases b with
    | nil => simp at hb
    | cons y bs =>
      cases c with
      | nil => simp at hc
      | cons z cs =>
        simp only [List.length_cons] at hb hc
        simp only [zip3, List.map_cons]
        rw [ih bs cs (by omega) (by omega)]

theorem zip3_map_thd {α β γ δ : Type} (g : γ → δ) :
    ∀ (a : List α) (b : List β) (c : List γ),
    a.length = b.length → a.length = c.length →
    (zip3 a b c).map (fun p => g p.2.2) = c.map g := by
  intro a
  induction a with
  | nil =>
    intro b c _ hc
    cases c with
    | nil => simp [zip3]
    | cons z cs => simp at hc
  | cons x as ih =>
    intro b c hb hc
    cases b with
    | nil => simp at hb
    | cons y bs =>
      cases c with
      | nil => simp at hc
      | cons z cs =>
        simp only [List.length_cons] at hb hc
        simp only [zip3, List.map_cons]
        rw [ih bs cs (by omega) (by omega)]

theorem buildRows_eq_some {now : ℤ} {h : HourlyBlock} {ts : List ℤ}
    (hts : parseTimes h.time = some ts)
    (h1 : ts.length = h.temperature_2m.length)
    (h2 : ts.length = h.rain.length) :
    buildRows now h =
      some ((zip3 ts h.temperature_2m h.rain).map fun p =>
        ⟨p.1, p.2.1, p.2.2, classify now p.1⟩) := by
  unfold buildRows
  rw [hts, Option.some_bind, if_pos ⟨h1, h2⟩]

theorem buildRows_none_of_misaligned {now : ℤ} {h : HourlyBlock}
    (hmis : ¬ (h.time.length = h.temperature_2m.length ∧
               h.time.length = h.rain.length)) :
    buildRows now h = none := by
  unfold buildRows
  cases hts : parseTimes h.time with
  | none => rfl
  | some ts =>
    have hlen := parseTimes_length hts
    rw [Option.some_bind, if_neg]
    rw [hlen]
    exact hmis

theorem buildRows_none_of_badTime {now : ℤ} {h : HourlyBlock}
    (hbad : none ∈ h.time) : buildRows now h = none := by
  unfold buildRows
  rw [parseTimes_none_of_mem hbad]
  rfl

theorem get_data_some {now : ℤ} {s : ℕ} {h : HourlyBlock} {rows : List Row}
    (hb : buildRows now h = some rows) :
    get_data now (.response s (some h)) = rows := by
  simp [get_data, hb]

theorem get_data_caught {now : ℤ} {s : ℕ} {h : HourlyBlock}
    (hb : buildRows now h = none) :
    get_data now (.response s (some h)) = [] := by
  simp [get_data, hb]

theorem mem_get_data_type {now : ℤ} {fr : FetchResult} {r : Row}
    (hr : r ∈ get_data now fr) : r.type = classify now r.date := by
  cases fr with
  | network => simp [get_data] at hr
  | response s o =>
    cases o with
    | none => simp [get_data] at hr
    | some h =>
      cases hb : buildRows now h with
      | none => rw [get_data_caught hb] at hr; simp at hr
      | some rows =>
        rw [get_data_some hb] at hr
        unfold buildRows at hb
        cases hts : parseTimes h.time with
        | none => rw [hts] at hb; simp at hb
        | some ts =>
          rw [hts] at hb
          rw [Option.some_bind] at hb
          by_cases hal : ts.length = h.temperature_2m.length ∧
              ts.length = h.rain.length
          · rw [if_pos hal] at hb
            rw [Option.some_inj] at hb
            subst hb
            obtain ⟨p, _, hp⟩ := List.mem_map.mp hr
            subst hp
            rfl
          · rw [if_neg hal] at hb
            exact absurd hb (by simp)

theorem get_data_map_date {now : ℤ} {s : ℕ} {h : HourlyBlock} {ts : List ℤ}
    (hts : parseTimes h.time = some ts)
    (h1 : ts.length = h.temperature_2m.length)
    (h2 : ts.length = h.rain.length) :
    (get_data now (.response s (some h))).map Row.date = ts := by
  rw [get_data_some (buildRows_eq_some hts h1 h2)]
  rw [List.map_map]
  have heq : (Row.date ∘ fun p : ℤ × Option ℚ × Option ℚ =>
      (⟨p.1, p.2.1, p.2.2, classify now p.1⟩ : Row)) =
      fun p : ℤ × Option ℚ × Option ℚ => (fun t : ℤ => t) p.1 := rfl
  rw [heq, zip3_map_fst (fun t : ℤ => t) ts h.temperature_2m h.rain h1 h2]
  simp

theorem get_data_map_rain {now : ℤ} {s : ℕ} {h : HourlyBlock} {ts : List ℤ}
    (hts : parseTimes h.time = some ts)
    (h1 : ts.length = h.temperature_2m.length)
    (h2 : ts.length = h.rain.length) :
    (get_data now (.response s (some h))).map Row.male_Rainfall = h.rain := by
  rw [get_data_some (buildRows_eq_some hts h1 h2)]
  rw [List.map_map]
  have heq : (Row.male_Rainfall ∘ fun p : ℤ × Option ℚ × Option ℚ =>
      (⟨p.1, p.2.1, p.2.2, classify now p.1⟩ : Row)) =
      fun p : ℤ × Option ℚ × Option ℚ => (fun x : Option ℚ => x) p.2.2 := rfl
  rw [heq, zip3_map_thd (fun x : Option ℚ => x) ts h.temperature_2m h.rain h1 h2]
  simp

theorem get_data_map_temp {now : ℤ} {s : ℕ} {h : HourlyBlock} {ts : List ℤ}
    (hts : parseTimes h.time = some ts)
    (h1 : ts.length = h.temperature_2m.length)
    (h2 : ts.length = h.rain.length) :
    (get_data now (.response s (some h))).map Row.male_Temperature =
      h.temperature_2m := by
  rw [get_data_some (buildRows_eq_some hts h1 h2)]
  rw [List.map_map]
  have heq : (Row.male_Temperature ∘ fun p : ℤ × Option ℚ × Option ℚ =>
      (⟨p.1, p.2.1, p.2.2, classify now p.1⟩ : Row)) =
      fun p : ℤ × Option ℚ × Option ℚ => (fun x : Option ℚ => x) p.2.1 := rfl
  rw [heq, zip3_map_snd (fun x : Option ℚ => x) ts h.temperature_2m h.rain h1 h2]
  simp

theorem get_data_map_type {now : ℤ} {s : ℕ} {h : HourlyBlock} {ts : List ℤ}
    (hts : parseTimes h.time = some ts)
    (h1 : ts.length = h.temperature_2m.length)
    (h2 : ts.length = h.rain.length) :
    (get_data now (.response s (some h))).map Row.type =
      ts.map (classify now) := by
  rw [get_data_some (buildRows_eq_some hts h1 h2)]
  rw [List.map_map]
  have heq : (Row.type ∘ fun p : ℤ × Option ℚ × Option ℚ =>
      (⟨p.1, p.2.1, p.2.2, classify now p.1⟩ : Row)) =
      fun p : ℤ × Option ℚ × Option ℚ => classify now p.1 := rfl
  rw [heq]
  exact zip3_map_fst (classify now) ts h.temperature_2m h.rain h1 h2

theorem get_data_length {now : ℤ} {s : ℕ} {h : HourlyBlock} {ts : List ℤ}
    (hts : parseTimes h.time = some ts)
    (h1 : ts.length = h.temperature_2m.length)
    (h2 : ts.length = h.rain.length) :
    (get_data now (.response s (some h))).length = h.time.length := by
  rw [get_data_some (buildRows_eq_some hts h1 h2), List.length_map,
    zip3_length ts h.temperature_2m h.rain h1 h2, parseTimes_length hts]

/-- Claim C1: for every produced point, its classification is Historical if
and only if its timestamp is strictly less than the reference time, and a
point whose timestamp equals the reference time is classified Forecast. -/
theorem C1_classification_boundary (now : ℤ) (fr : FetchResult) (r : Row)
    (hr : r ∈ get_data now fr) :
    (r.type = Classification.Historical ↔ r.date < now) ∧
    (r.date = now → r.type = Classification.Forecast) := by
  have ht := mem_get_data_type hr
  constructor
  · rw [ht]
    unfold classify
    by_cases hlt : r.date < now
    · simp [hlt]
    · simp [hlt]
  · intro heq
    rw [ht, heq]
    simp [classify]

theorem C1_classification_boundary_witness :
    ((Row.mk 0 (some 25) (some 0) Classification.Historical).type =
        Classification.Historical ↔
      (Row.mk 0 (some 25) (some 0) Classification.Historical).date < 1) ∧
    ((Row.mk 0 (some 25) (some 0) Classification.Historical).date = 1 →
      (Row.mk 0 (some 25) (some 0) Classification.Historical).type =
        Classification.Forecast) :=
  C1_classification_boundary 1
    (.response 200 (some ⟨[some 0], [some 25], [some 0]⟩))
    (Row.mk 0 (some 25) (some 0) Classification.Historical) (by decide)

/-- Claim C2 counterexample: on the spec's own misaligned payload (five time
entries, four temperatures), get_data returns the empty DataFrame — the very
value a network failure returns — rather than any value identifying the
condition as NormalizeError.MisalignedArrays. No typed error exists in the
interface. -/
theorem C2_counterexample :
    get_data 0 (.response 200 (some ⟨[some 0, some 1, some 2, some 3, some 4],
        [some 28, some 27, some 29, some 30],
        [some 0, some 0, some 0, some 0, some 0]⟩)) = [] ∧
    get_data 0 (.response 200 (some ⟨[some 0, some 1, some 2, some 3, some 4],
        [some 28, some 27, some 29, some 30],
        [some 0, some 0, some 0, some 0, some 0]⟩)) =
      get_data 0 .network := by
  decide

/-- Claim C2 (amended): whenever the three arrays do not all have equal
length, the DataFrame construction raises, the exception is caught, and
get_data returns the empty DataFrame — never a truncated or partially zipped
series, and the run never crashes; but the condition is not surfaced as a
typed MisalignedArrays error value. -/
theorem C2_misaligned_swallowed (now : ℤ) (s : ℕ) (h : HourlyBlock)
    (hmis : ¬ (h.time.length = h.temperature_2m.length ∧
               h.time.length = h.rain.length)) :
    buildRows now h = none ∧ get_data now (.response s (some h)) = [] := by
  have hb : buildRows now h = none := buildRows_none_of_misaligned hmis
  exact ⟨hb, get_data_caught hb⟩

theorem C2_misaligned_swallowed_witness :
    buildRows 0 ⟨[some 0, some 1, some 2, some 3, some 4],
        [some 28, some 27, some 29, some 30],
        [some 0, some 0, some 0, some 0, some 0]⟩ = none ∧
    get_data 0 (.response 200 (some ⟨[some 0, some 1, some 2, some 3, some 4],
        [some 28, some 27, some 29, some 30],
        [some 0, some 0, some 0, some 0, some 0]⟩)) = [] :=
  C2_misaligned_swallowed 0 200
    ⟨[some 0, some 1, some 2, some 3, some 4],
     [some 28, some 27, some 29, some 30],
     [some 0, some 0, some 0, some 0, some 0]⟩ (by decide)

/-- Claim C3 counterexample: a transport failure and an HTTP 500 whose body
lacks the hourly block both return the identical empty DataFrame, so no
typed FetchError value distinguishing Network from ApiError or
MalformedPayload is produced; moreover a non-success HTTP 500 response whose
body does carry an hourly block is processed into a normal one-point series
instead of any error — the status code is never consulted. -/
theorem C3_counterexample :
    get_data 0 .network = [] ∧
    get_data 0 (.response 500 none) = [] ∧
    get_data 0 .network = get_data 0 (.response 500 none) ∧
    get_data 10 (.response 500 (some ⟨[some 0], [some 28], [some 1]⟩)) =
      [⟨0, some 28, some 1, Classification.Historical⟩] := by
  decide

/-- Claim C3 (amended): every failing fetch — transport failure or a body
with no hourly block, whatever the status code — yields the empty DataFrame,
not a typed error value; and the return value never depends on the HTTP
status code, so error statuses are not distinguished from success. -/
theorem C3_failing_fetch_empty (now : ℤ) (fr : FetchResult)
    (hfail : fr = .network ∨ ∃ s, fr = .response s none) :
    get_data now fr = [] ∧
    ∀ (s₁ s₂ : ℕ) (hb : Option HourlyBlock),
      get_data now (.response s₁ hb) = get_data now (.response s₂ hb) := by
  constructor
  · rcases hfail with h | ⟨s, h⟩ <;> subst h <;> rfl
  · intro s₁ s₂ hb
    cases hb <;> rfl

theorem C3_failing_fetch_empty_witness :
    get_data 0 FetchResult.network = [] ∧
    ∀ (s₁ s₂ : ℕ) (hb : Option HourlyBlock),
      get_data 0 (.response s₁ hb) = get_data 0 (.response s₂ hb) :=
  C3_failing_fetch_empty 0 .network (Or.inl rfl)

/-- Claim C4 counterexample: on the aligned, fully valid payload with time
entries in the order 1, 0, 0, get_data returns points in that same order —
not sorted ascending — and with the timestamp 0 appearing twice — not
deduplicated. -/
theorem C4_counterexample :
    ((get_data 5 (.response 200 (some ⟨[some 1, some 0, some 0],
        [some 20, some 21, some 22], [some 0, some 0, some 0]⟩))).map
        Row.date = [1, 0, 0]) ∧
    ¬ List.Sorted (· ≤ ·)
        ((get_data 5 (.response 200 (some ⟨[some 1, some 0, some 0],
          [some 20, some 21, some 22], [some 0, some 0, some 0]⟩))).map
          Row.date) ∧
    ¬ ((get_data 5 (.response 200 (some ⟨[some 1, some 0, some 0],
        [some 20, some 21, some 22], [some 0, some 0, some 0]⟩))).map
        Row.date).Nodup := by
  refine ⟨by decide, ?_, by decide⟩
  intro hs
  rw [show ((get_data 5 (.response 200 (some ⟨[some 1, some 0, some 0],
      [some 20, some 21, some 22], [some 0, some 0, some 0]⟩))).map
      Row.date) = [1, 0, 0] from by decide] at hs
  have h10 := List.rel_of_sorted_cons hs 0 (by simp)
  omega

/-- Claim C4 (amended): normalization neither sorts nor deduplicates — the
output timestamps are exactly the parsed input timestamps, in input order
and with any duplicates retained, so the output is sorted or duplicate-free
only when the input already is. -/
theorem C4_order_verbatim (now : ℤ) (s : ℕ) (h : HourlyBlock) (ts : List ℤ)
    (hts : parseTimes h.time = some ts)
    (h1 : ts.length = h.temperature_2m.length)
    (h2 : ts.length = h.rain.length) :
    (get_data now (.response s (some h))).map Row.date = ts :=
  get_data_map_date hts h1 h2

theorem C4_order_verbatim_witness :
    (get_data 5 (.response 200 (some ⟨[some 0, some 1],
        [some 20, some 21], [some 0, some 0]⟩))).map Row.date = [0, 1] :=
  C4_order_verbatim 5 200 ⟨[some 0, some 1], [some 20, some 21],
    [some 0, some 0]⟩ [0, 1] (by decide) (by decide) (by decide)

/-- Claim C5 counterexample: on the spec scenario payload — times 0 and 1,
temperatures 28 and null, rain null and 5, reference time 1 — the output
keeps both rows: the null rain entry stays missing instead of becoming 0,
and the row with missing temperature is retained (and classified) instead
of being dropped. -/
theorem C5_counterexample :
    get_data 1 (.response 200 (some ⟨[some 0, some 1], [some 28, none],
        [none, some 5]⟩)) =
      [⟨0, some 28, none, Classification.Historical⟩,
       ⟨1, none, some 5, Classification.Forecast⟩] ∧
    (get_data 1 (.response 200 (some ⟨[some 0, some 1], [some 28, none],
        [none, some 5]⟩))).length = 2 := by
  decide

/-- Claim C5 (amended): the rainfall and temperature columns are carried
through verbatim from the payload — a null or absent rainfall entry remains
missing (it is not zero-filled and no sign constraint is applied), and a row
whose temperature is missing is kept in the output with a missing value,
never dropped. -/
theorem C5_values_verbatim (now : ℤ) (s : ℕ) (h : HourlyBlock) (ts : List ℤ)
    (hts : parseTimes h.time = some ts)
    (h1 : ts.length = h.temperature_2m.length)
    (h2 : ts.length = h.rain.length) :
    (get_data now (.response s (some h))).map Row.male_Rainfall = h.rain ∧
    (get_data now (.response s (some h))).map Row.male_Temperature =
      h.temperature_2m :=
  ⟨get_data_map_rain hts h1 h2, get_data_map_temp hts h1 h2⟩

theorem C5_values_verbatim_witness :
    ((get_data 1 (.response 200 (some ⟨[some 0], [none], [none]⟩))).map
        Row.male_Rainfall = [none]) ∧
    ((get_data 1 (.response 200 (some ⟨[some 0], [none], [none]⟩))).map
        Row.male_Temperature = [none]) :=
  C5_values_verbatim 1 200 ⟨[some 0], [none], [none]⟩ [0]
    (by decide) (by decide) (by decide)

/-- Claim C6 counterexample: the payload whose arrays are all empty
normalizes successfully to the empty series — buildRows succeeds with the
empty row list, no exception is raised, and get_data hands the empty
DataFrame onward; no EmptySeries error value exists or is signaled. -/
theorem C6_counterexample :
    buildRows 7 ⟨[], [], []⟩ = some [] ∧
    get_data 7 (.response 404 (some ⟨[], [], []⟩)) = [] := by
  decide

/-- Claim C6 (amended): a payload with empty time, temperature and rain
arrays is accepted: normalization succeeds and produces the empty series,
and get_data returns the empty DataFrame with no error condition signaled
(downstream, create_figure merely checks emptiness). -/
theorem C6_empty_payload_no_error (now : ℤ) (s : ℕ) (h : HourlyBlock)
    (ht : h.time = []) (htemp : h.temperature_2m = []) (hrain : h.rain = []) :
    buildRows now h = some [] ∧ get_data now (.response s (some h)) = [] := by
  have hb : buildRows now h = some [] := by
    unfold buildRows
    rw [ht, htemp, hrain]
    rfl
  exact ⟨hb, get_data_some hb⟩

theorem C6_empty_payload_no_error_witness :
    buildRows 0 ⟨[], [], []⟩ = some [] ∧
    get_data 0 (.response 200 (some ⟨[], [], []⟩)) = [] :=
  C6_empty_payload_no_error 0 200 ⟨[], [], []⟩ rfl rfl rfl

/-- Claim C7: for every already-sorted payload with N aligned, valid entries
(every time entry parses and every temperature is present, so zero rows are
subject to the missing-temperature drop), normalization produces exactly
N points — N minus the zero dropped rows — and preserves the input order of
the entries. -/
theorem C7_round_trip (now : ℤ) (s : ℕ) (h : HourlyBlock) (ts : List ℤ)
    (hts : parseTimes h.time = some ts)
    (h1 : ts.length = h.temperature_2m.length)
    (h2 : ts.length = h.rain.length)
    (_hvalid : ∀ x ∈ h.temperature_2m, x ≠ none)
    (_hsorted : List.Sorted (· ≤ ·) ts) :
    (get_data now (.response s (some h))).length = h.time.length ∧
    (get_data now (.response s (some h))).map Row.date = ts :=
  ⟨get_data_length hts h1 h2, get_data_map_date hts h1 h2⟩

theorem C7_round_trip_witness :
    (get_data 30 (.response 200 (some ⟨[some 0, some 60],
        [some 20, some 21], [some 0, some 1]⟩))).length = 2 ∧
    (get_data 30 (.response 200 (some ⟨[some 0, some 60],
        [some 20, some 21], [some 0, some 1]⟩))).map Row.date = [0, 60] :=
  C7_round_trip 30 200 ⟨[some 0, some 60], [some 20, some 21],
    [some 0, some 1]⟩ [0, 60] (by decide) (by decide) (by decide)
    (by decide) (by decide)

/-- Claim C8 counterexample: with the clock at 90 and an hourly series on
the grid 0, 60, 120 (in minutes), the code classifies against the raw
reference 90, giving Historical, Historical, Forecast; classification
against the hour-truncated reference, which is 60, would give Historical,
Forecast, Forecast. The reference in use is therefore not truncated to the
series granularity, and it lies strictly between the adjacent grid points
60 and 120. -/
theorem C8_counterexample :
    ((get_data 90 (.response 200 (some ⟨[some 0, some 60, some 120],
        [some 25, some 26, some 27], [some 0, some 1, some 2]⟩))).map
        Row.type =
      [Classification.Historical, Classification.Historical,
       Classification.Forecast]) ∧
    truncatedReference 60 90 = 60 ∧
    ([(0:ℤ), 60, 120].map (classify (truncatedReference 60 90)) =
      [Classification.Historical, Classification.Forecast,
       Classification.Forecast]) ∧
    ((get_data 90 (.response 200 (some ⟨[some 0, some 60, some 120],
        [some 25, some 26, some 27], [some 0, some 1, some 2]⟩))).map
        Row.type ≠
      [(0:ℤ), 60, 120].map (classify (truncatedReference 60 90))) := by
  decide

/-- Claim C8 (amended): the reference time is pd.Timestamp.now() used at
full precision — no truncation to the series granularity (day or hour) is
applied — and every point is classified against that raw value, so the
historical/forecast boundary can fall strictly between two adjacent grid
points of the series. -/
theorem C8_untruncated_reference (now : ℤ) (s : ℕ) (h : HourlyBlock)
    (ts : List ℤ) (hts : parseTimes h.time = some ts)
    (h1 : ts.length = h.temperature_2m.length)
    (h2 : ts.length = h.rain.length) :
    (get_data now (.response s (some h))).map Row.type =
      ts.map (classify now) :=
  get_data_map_type hts h1 h2

theorem C8_untruncated_reference_witness :
    (get_data 90 (.response 200 (some ⟨[some 0, some 60, some 120],
        [some 25, some 26, some 27], [some 0, some 1, some 2]⟩))).map
      Row.type = [(0:ℤ), 60, 120].map (classify 90) :=
  C8_untruncated_reference 90 200 ⟨[some 0, some 60, some 120],
    [some 25, some 26, some 27], [some 0, some 1, some 2]⟩ [0, 60, 120]
    (by decide) (by decide) (by decide)

/-- Claim C9: get_data is total at its public interface — on a transport
failure, a payload missing the hourly block, misaligned arrays, or an
unparseable time entry, it returns the empty DataFrame, and no exception
escapes to the caller (the embedded get_data is a total function into row
lists, every caught exception mapping to the empty list). -/
theorem C9_total (now : ℤ) :
    get_data now .network = [] ∧
    (∀ s : ℕ, get_data now (.response s none) = []) ∧
    (∀ (s : ℕ) (h : HourlyBlock),
      ¬ (h.time.length = h.temperature_2m.length ∧
         h.time.length = h.rain.length) →
      get_data now (.response s (some h)) = []) ∧
    (∀ (s : ℕ) (h : HourlyBlock), none ∈ h.time →
      get_data now (.response s (some h)) = []) := by
  refine ⟨rfl, fun s => rfl, ?_, ?_⟩
  · intro s h hmis
    exact get_data_caught (buildRows_none_of_misaligned hmis)
  · intro s h hbad
    exact get_data_caught (buildRows_none_of_badTime hbad)

theorem C9_total_witness :
    get_data 0 (.response 200 (some ⟨[some 0, none], [some 20, some 21],
        [some 0, some 1]⟩)) = [] :=
  (C9_total 0).2.2.2 200 ⟨[some 0, none], [some 20, some 21],
    [some 0, some 1]⟩ (by decide)

/-- Claim C10: when the produced series has ascending timestamps, the
classification is monotone along it — for any two points in order, if the
later one is Historical then so is the earlier one, i.e. every Historical
point precedes every Forecast point, so the first Forecast row is the
unique historical-to-forecast transition used for the boundary marker in
create_figure. -/
theorem C10_monotone (now : ℤ) (fr : FetchResult)
    (hsorted : List.Sorted (· ≤ ·) ((get_data now fr).map Row.date)) :
    List.Pairwise (fun a b => b.type = Classification.Historical →
      a.type = Classification.Historical) (get_data now fr) := by
  rw [List.Sorted, List.pairwise_map] at hsorted
  refine hsorted.imp_of_mem ?_
  intro a b ha hb hab hbH
  have hta := mem_get_data_type ha
  have htb := mem_get_data_type hb
  rw [htb] at hbH
  unfold classify at hbH
  by_cases hblt : b.date < now
  · rw [hta]
    unfold classify
    rw [if_pos (lt_of_le_of_lt hab hblt)]
  · rw [if_neg hblt] at hbH
    exact absurd hbH (by decide)

theorem C10_monotone_witness :
    List.Pairwise (fun a b => b.type = Classification.Historical →
      a.type = Classification.Historical)
      (get_data 90 (.response 200 (some ⟨[some 0, some 60, some 120],
        [some 24, some 25, some 26], [some 0, some 0, some 1]⟩))) :=
  C10_monotone 90 (.response 200 (some ⟨[some 0, some 60, some 120],
    [some 24, some 25, some 26], [some 0, some 0, some 1]⟩)) (by decide)
